import Mathlib

/-
Verification development for the wind-tunnel demo repository.

Shallow embedding conventions:
- Python floats are modelled as rationals.
- Python dicts (which preserve insertion order) are modelled as association
  lists of key-value pairs.
- A Python constructor whose body can raise (assert statements, unexpected
  keyword arguments) is modelled as a smart constructor returning Option:
  none means construction raised.
- Calls into the external backend client that can raise are modelled as an
  oracle function returning Except.
-/

/-- Wind tunnel model: the dataclass WindTunnel of src/lib/models.py.
The dataclass declares exactly two fields, flow_velocity and domain;
after post-init the domain is always a concrete mapping, modelled as an
ordered association list from axis name to the list of bounds. -/
structure WindTunnel where
  flow_velocity : ℚ × ℚ × ℚ
  domain : List (String × List ℚ)
deriving Repr, DecidableEq

/-- Squared flow-velocity magnitude as computed in post-init of
src/lib/models.py (sum of squared components). -/
def velocityMagnitudeSq (v : ℚ × ℚ × ℚ) : ℚ :=
  v.1 ^ 2 + v.2.1 ^ 2 + v.2.2 ^ 2

/-- Default domain mapping substituted in post-init when the domain
argument is None (src/lib/models.py line 19). -/
def WindTunnel.defaultDomain : List (String × List ℚ) :=
  [("x", [-5, 15]), ("y", [-4, 4]), ("z", [0, 8])]

/-- Default value of the flow_velocity field (src/lib/models.py line 10). -/
def WindTunnel.defaultFlowVelocity : ℚ × ℚ × ℚ := (30, 0, 0)

/-- Construction of a WindTunnel, including the post-init body of
src/lib/models.py: assert squared magnitude below 100 squared, fill in the
default domain when none was given, then assert the domain keys are
exactly x, y, z in that order. A failed assert is modelled as none. -/
def WindTunnel.construct (v : ℚ × ℚ × ℚ)
    (dom : Option (List (String × List ℚ))) : Option WindTunnel :=
  if velocityMagnitudeSq v < 100 ^ 2 then
    let d := dom.getD WindTunnel.defaultDomain
    if d.map Prod.fst = ["x", "y", "z"] then
      some ⟨v, d⟩
    else
      none
  else
    none

/-- Construction with every argument omitted: both dataclass fields take
their declared defaults before post-init runs. -/
def WindTunnel.constructWithDefaults : Option WindTunnel :=
  WindTunnel.construct WindTunnel.defaultFlowVelocity none

/-- Simulation parameters: the dataclass SimulationParameters of
src/lib/scenarios.py. Its body declares the two fields with defaults and
a to_dict method; there is no post-init and no validation. -/
structure SimulationParameters where
  num_iterations : ℚ
  resolution : ℤ
deriving Repr, DecidableEq

/-- Construction of SimulationParameters: the generated dataclass init
simply stores the two fields; nothing can fail, so construction always
returns some. -/
def SimulationParameters.construct (n : ℚ) (r : ℤ) :
    Option SimulationParameters :=
  some ⟨n, r⟩

/-- Construction with every argument omitted: the declared field defaults
num_iterations = 100 and resolution = 2 are used. -/
def SimulationParameters.constructWithDefaults : Option SimulationParameters :=
  SimulationParameters.construct 100 2

/-- Values that can appear in the serialized (asdict) mapping of either
model: numbers, integers, the velocity triple, or the domain mapping. -/
inductive ParamValue
  | num (q : ℚ)
  | int (z : ℤ)
  | vec (v : ℚ × ℚ × ℚ)
  | domainMap (d : List (String × List ℚ))
deriving Repr, DecidableEq

/-- Serialization WindTunnel.to_dict of src/lib/models.py: asdict yields
the flat field-name to value mapping in field-declaration order. -/
def WindTunnel.to_dict (w : WindTunnel) : List (String × ParamValue) :=
  [("flow_velocity", .vec w.flow_velocity), ("domain", .domainMap w.domain)]

/-- Serialization SimulationParameters.to_dict of src/lib/scenarios.py. -/
def SimulationParameters.to_dict (p : SimulationParameters) :
    List (String × ParamValue) :=
  [("num_iterations", .num p.num_iterations), ("resolution", .int p.resolution)]

/-- Reconstructing a WindTunnel from a serialized mapping, as in calling
the constructor with the keyword arguments of the mapping. -/
def WindTunnel.fromDict (d : List (String × ParamValue)) : Option WindTunnel :=
  match d.lookup "flow_velocity", d.lookup "domain" with
  | some (.vec v), some (.domainMap dm) => WindTunnel.construct v (some dm)
  | _, _ => none

/-- Reconstructing SimulationParameters from a serialized mapping. -/
def SimulationParameters.fromDict (d : List (String × ParamValue)) :
    Option SimulationParameters :=
  match d.lookup "num_iterations", d.lookup "resolution" with
  | some (.num n), some (.int r) => SimulationParameters.construct n r
  | _, _ => none

/-- The two historical shapes in which callers pass the domain bounds to
the WindTunnel constructor: as an optional axis mapping (the shape the
dataclass in src/lib/models.py declares), or as six scalar keyword
arguments (the shape used by src/single_wind_tunnels.py,
src/batch_wind_tunnels.py, src/large_job_submission.py and
src/large_scale_example/job_submission.py). -/
inductive DomainSpecShape
  | mapping (d : Option (List (String × List ℚ)))
  | scalars (x_min x_max y_min y_max z_min z_max : ℚ)
deriving Repr

/-- Constructing a WindTunnel from either historical input shape. The
dataclass of src/lib/models.py declares only the fields flow_velocity and
domain, so its generated init rejects the scalar keyword arguments
x_min, ..., z_max with a TypeError, modelled as none. -/
def WindTunnel.constructFromShape (v : ℚ × ℚ × ℚ) :
    DomainSpecShape → Option WindTunnel
  | .mapping d => WindTunnel.construct v d
  | .scalars _ _ _ _ _ _ => none

/-- Scenario class WindTunnelScenario of src/lib/scenarios.py: it is
initialized with a wind tunnel model and keeps it as its only state. -/
structure WindTunnelScenario where
  wind_tunnel : WindTunnel
deriving Repr, DecidableEq

/-- The class constant SCENARIO_DIR of WindTunnelScenario
(src/lib/scenarios.py line 56). -/
def WindTunnelScenario.SCENARIO_DIR : String := "wind_tunnel_input"

/-- The module constant SCENARIO_TEMPLATE_DIR of src/lib/scenarios.py:
the templates directory that sits next to the scenarios module. Only its
identity matters to the claims, so it is modelled as its relative name. -/
def SCENARIO_TEMPLATE_DIR : String := "templates"

/-- Method get_commands of WindTunnelScenario (src/lib/scenarios.py
lines 66 to 78): the body is a single list literal of eight commands,
returned unchanged. -/
def WindTunnelScenario.get_commands (_s : WindTunnelScenario) : List String :=
  [ "runApplication surfaceFeatures",
    "runApplication blockMesh",
    "runApplication decomposePar -copyZero",
    "runParallel snappyHexMesh -overwrite",
    "runParallel potentialFoam",
    "runParallel simpleFoam",
    "runApplication reconstructParMesh -constant",
    "runApplication reconstructPar -latestTime" ]

/-- The observable effect of one call to WindTunnelScenario.simulate
(src/lib/scenarios.py lines 80 to 104): the root directory set for the
case, the template directory copied in, the placeholder substitution
mapping passed to add_dir, the source and destination of the added
object file, and the command list handed to the simulator run call. -/
structure CaseAssembly where
  root_dir : String
  template_dir : String
  substitutions : List (String × ParamValue)
  added_file_src : String
  added_file_dest : String
  commands : List String
deriving Repr, DecidableEq

/-- Method simulate of WindTunnelScenario: set_root_dir(SCENARIO_DIR);
add_dir(SCENARIO_TEMPLATE_DIR, **sim_params.to_dict(),
**self.wind_tunnel.to_dict()); add_file(object_path,
"constant/triSurface/object.obj"); then run with get_commands(). The
keyword-argument merge puts the simulation parameters first and the wind
tunnel fields after them, modelled by list append. -/
def WindTunnelScenario.simulate (s : WindTunnelScenario)
    (object_path : String) (sim_params : SimulationParameters) :
    CaseAssembly :=
  { root_dir := WindTunnelScenario.SCENARIO_DIR
  , template_dir := SCENARIO_TEMPLATE_DIR
  , substitutions := sim_params.to_dict ++ s.wind_tunnel.to_dict
  , added_file_src := object_path
  , added_file_dest := "constant/triSurface/object.obj"
  , commands := s.get_commands }

/-- One line of the task metadata log consumed by
src/monitor_and_download_tasks.py: each JSON line carries at least the
fields input_dir and task_id. -/
structure TaskRecord where
  input_dir : String
  task_id : String
deriving Repr, DecidableEq

/-- Python dict update task_counts[status] = 1 or += 1 from the loop of
src/monitor_and_download_tasks.py, on an insertion-ordered association
list: a fresh status is appended with count 1, an existing one is
incremented in place. -/
def bumpCount : List (String × Nat) → String → List (String × Nat)
  | [], s => [(s, 1)]
  | (k, n) :: rest, s =>
    if k = s then (k, n + 1) :: rest else (k, n) :: bumpCount rest s

/-- Total of all counts in a status-to-count mapping. -/
def countsSum (c : List (String × Nat)) : Nat :=
  (c.map Prod.snd).sum

/-- Module constant DOWNLOAD_TASKS of src/monitor_and_download_tasks.py
(line 8): downloads for successful tasks are switched on. -/
def DOWNLOAD_TASKS : Bool := true

/-- The per-record loop of main in src/monitor_and_download_tasks.py.
Each iteration calls task.get_status() exactly once through the backend
client, modelled by the getStatus oracle; after counting the returned
status, when it equals success and DOWNLOAD_TASKS is set, the iteration
also calls task.download_outputs into the downloaded_outputs
subdirectory of the record's input directory, modelled by the download
oracle on task id and output directory. The source wraps no try block
around either call, so an error from either oracle propagates out of
the loop at once. Besides the counts the loop result records the
sequence of task ids queried, in order. -/
def reconcileLoop (getStatus : String → Except String String)
    (download : String → String → Except String Unit) :
    List TaskRecord → List (String × Nat) → List String →
    Except String (List (String × Nat) × List String)
  | [], counts, queried => .ok (counts, queried)
  | r :: rs, counts, queried =>
    match getStatus r.task_id with
    | .error e => .error e
    | .ok st =>
      if st = "success" ∧ DOWNLOAD_TASKS = true then
        match download r.task_id (r.input_dir ++ "/downloaded_outputs") with
        | .error e => .error e
        | .ok _ => reconcileLoop getStatus download rs (bumpCount counts st)
            (queried ++ [r.task_id])
      else
        reconcileLoop getStatus download rs (bumpCount counts st)
          (queried ++ [r.task_id])

/-- Function main of src/monitor_and_download_tasks.py, from the point
where the log lines have been parsed: the reconciliation loop started on
an empty counts dict. -/
def monitorMain (getStatus : String → Except String String)
    (download : String → String → Except String Unit)
    (records : List TaskRecord) :
    Except String (List (String × Nat) × List String) :=
  reconcileLoop getStatus download records [] []

/-- A flow vector at the magnitude limit is rejected by post-init. -/
example : WindTunnel.construct (100, 0, 0) none = none := by
  norm_num [WindTunnel.construct, velocityMagnitudeSq]

/-- Bumping a status in the counts mapping raises the total by one. -/
theorem countsSum_bumpCount (c : List (String × Nat)) (s : String) :
    countsSum (bumpCount c s) = countsSum c + 1 := by
  induction c with
  | nil => simp [bumpCount, countsSum]
  | cons p rest ih =>
    obtain ⟨k, n⟩ := p
    by_cases hk : k = s
    · simp [bumpCount, hk, countsSum]
      ring
    · simp only [bumpCount, hk, if_false]
      simp [countsSum] at ih ⊢
      omega

/-- When every status query of the remaining records resolves and every
output download for them resolves, the reconciliation loop finishes,
appends exactly the task ids of those records to the queried sequence,
and grows the total count by their number. -/
theorem reconcileLoop_ok (gs : String → Except String String)
    (dl : String → String → Except String Unit) :
    ∀ (rs : List TaskRecord) (c : List (String × Nat)) (q : List String),
    (∀ r ∈ rs, (gs r.task_id).isOk = true) →
    (∀ r ∈ rs,
      (dl r.task_id (r.input_dir ++ "/downloaded_outputs")).isOk = true) →
    ∃ c2, reconcileLoop gs dl rs c q =
        .ok (c2, q ++ rs.map TaskRecord.task_id) ∧
      countsSum c2 = countsSum c + rs.length := by
  intro rs
  induction rs with
  | nil =>
    intro c q _ _
    exact ⟨c, by simp [reconcileLoop], by simp⟩
  | cons r rest ih =>
    intro c q hok hdl
    have hr : (gs r.task_id).isOk = true := hok r (by simp)
    obtain ⟨st, hst⟩ : ∃ st, gs r.task_id = .ok st := by
      cases hgs : gs r.task_id with
      | error e => rw [hgs] at hr; simp [Except.isOk, Except.toBool] at hr
      | ok st => exact ⟨st, rfl⟩
    have hrest : ∀ x ∈ rest, (gs x.task_id).isOk = true := by
      intro x hx
      exact hok x (by simp [hx])
    have hdlrest : ∀ x ∈ rest,
        (dl x.task_id (x.input_dir ++ "/downloaded_outputs")).isOk = true := by
      intro x hx
      exact hdl x (by simp [hx])
    obtain ⟨c2, heq, hsum⟩ :=
      ih (bumpCount c st) (q ++ [r.task_id]) hrest hdlrest
    refine ⟨c2, ?_, ?_⟩
    · by_cases hsucc : st = "success" ∧ DOWNLOAD_TASKS = true
      · have hd : (dl r.task_id
            (r.input_dir ++ "/downloaded_outputs")).isOk = true :=
          hdl r (by simp)
        obtain ⟨u, hu⟩ : ∃ u,
            dl r.task_id (r.input_dir ++ "/downloaded_outputs") = .ok u := by
          cases hdlr : dl r.task_id (r.input_dir ++ "/downloaded_outputs") with
          | error e =>
            rw [hdlr] at hd; simp [Except.isOk, Except.toBool] at hd
          | ok u => exact ⟨u, rfl⟩
        simp only [reconcileLoop, hst, if_pos hsucc, hu, heq]
        simp
      · simp only [reconcileLoop, hst, if_neg hsucc, heq]
        simp
    · rw [hsum, countsSum_bumpCount]
      simp
      omega

/-- C1: the spec claims that any domain axis with min at or above max
fails construction. The post-init of src/lib/models.py never inspects
the bound values, so the claim is false; this counterexample constructs
a WindTunnel whose x axis is the reversed interval from 15 down to -5
and construction succeeds, silently accepting the unordered box. -/
theorem c1_unordered_domain_accepted :
    WindTunnel.construct (30, 0, 0)
      (some [("x", [15, -5]), ("y", [-4, 4]), ("z", [0, 8])]) =
    some ⟨(30, 0, 0), [("x", [15, -5]), ("y", [-4, 4]), ("z", [0, 8])]⟩ := by
  norm_num [WindTunnel.construct, velocityMagnitudeSq]

/-- C1 (amended): domain axis ordering is never validated. For every
choice of per-axis bounds, ordered or not, construction succeeds exactly
when the flow velocity is valid; min at or above max is silently
accepted rather than rejected. -/
theorem c1_domain_ordering_unchecked (v : ℚ × ℚ × ℚ)
    (xlo xhi ylo yhi zlo zhi : ℚ) :
    (WindTunnel.construct v
        (some [("x", [xlo, xhi]), ("y", [ylo, yhi]),
               ("z", [zlo, zhi])])).isSome = true ↔
      velocityMagnitudeSq v < 100 ^ 2 := by
  unfold WindTunnel.construct
  split_ifs with h1 <;> simp_all

/-- C2: with a domain mapping supplied, construction succeeds exactly
when the Euclidean magnitude of the flow velocity is below 100 and the
domain keys are x, y, z; in particular any vector of magnitude at or
above 100 fails construction, and any vector below 100 with a valid box
succeeds. -/
theorem c2_velocity_magnitude_validation (v : ℚ × ℚ × ℚ)
    (d : List (String × List ℚ)) :
    (WindTunnel.construct v (some d)).isSome = true ↔
      (Real.sqrt ((velocityMagnitudeSq v : ℚ) : ℝ) < 100 ∧
       d.map Prod.fst = ["x", "y", "z"]) := by
  have hsq : Real.sqrt ((velocityMagnitudeSq v : ℚ) : ℝ) < 100 ↔
      ((velocityMagnitudeSq v : ℚ) : ℝ) < 100 ^ 2 :=
    Real.sqrt_lt' (by norm_num)
  have hcast : (((velocityMagnitudeSq v : ℚ) : ℝ) < 100 ^ 2) ↔
      velocityMagnitudeSq v < 100 ^ 2 := by
    constructor <;> intro h <;> exact_mod_cast h
  rw [hsq, hcast]
  unfold WindTunnel.construct
  split_ifs with h1 <;> simp_all

/-- C3: the repository itself calls the constructor with the six scalar
bounds (src/single_wind_tunnels.py lines 7 to 13), but the dataclass of
src/lib/models.py declares only flow_velocity and domain, so that call
raises a TypeError while the equivalent mapping-shaped call succeeds:
the scalar schema the spec requires is not supported by the model. -/
theorem c3_scalar_shape_rejected :
    WindTunnel.constructFromShape (30, 0, 0)
      (.scalars (-5) 15 (-5) 5 0 8) = none ∧
    (WindTunnel.constructFromShape (30, 0, 0)
      (.mapping (some [("x", [-5, 15]), ("y", [-5, 5]),
                       ("z", [0, 8])]))).isSome = true := by
  refine ⟨rfl, ?_⟩
  norm_num [WindTunnel.constructFromShape, WindTunnel.construct,
    velocityMagnitudeSq]

/-- C4: for every scenario and every simulation parameters value,
get_commands returns the same fixed ordered list of exactly eight
commands, from surfaceFeatures through reconstructPar, independent of
every input. -/
theorem c4_fixed_command_pipeline (s : WindTunnelScenario)
    (_sp : SimulationParameters) :
    s.get_commands =
      [ "runApplication surfaceFeatures",
        "runApplication blockMesh",
        "runApplication decomposePar -copyZero",
        "runParallel snappyHexMesh -overwrite",
        "runParallel potentialFoam",
        "runParallel simpleFoam",
        "runApplication reconstructParMesh -constant",
        "runApplication reconstructPar -latestTime" ] ∧
    s.get_commands.length = 8 :=
  ⟨rfl, rfl⟩

/-- C5: the spec claims non-positive num_iterations or resolution fail
construction with a ValidationError. SimulationParameters in
src/lib/scenarios.py has no post-init and no validation at all, so the
non-positive pair num_iterations = -1, resolution = 0 is accepted. -/
theorem c5_nonpositive_accepted :
    SimulationParameters.construct (-1) 0 = some ⟨-1, 0⟩ :=
  rfl

/-- C5 (amended): construction of SimulationParameters performs no
validation at all; every pair of values, positive or not, yields an
instance storing exactly the given fields. -/
theorem c5_no_validation (n : ℚ) (r : ℤ) :
    SimulationParameters.construct n r = some ⟨n, r⟩ :=
  rfl

/-- A success record whose output download raises also aborts the
batch: neither backend call of the loop is guarded. -/
example :
    monitorMain (fun _ => .ok "success") (fun _ _ => .error "download failed")
      [⟨"dir", "t1"⟩] = .error "download failed" := by
  simp [monitorMain, reconcileLoop, DOWNLOAD_TASKS]

/-- C6: the spec claims a record whose job id no longer resolves is
counted under a distinct unknown status instead of raising, so one
unresolvable record never aborts the batch. The loop of main in
src/monitor_and_download_tasks.py wraps no exception handler around
get_status, so a backend that raises for the purged id aborts the whole
batch: on a one-record log whose query raises, main propagates the error
and produces no counts at all, whatever the download oracle does. -/
theorem c6_unresolvable_aborts_batch :
    monitorMain (fun _ => .error "task id not found") (fun _ _ => .ok ())
      [⟨"dir", "t1"⟩] = .error "task id not found" :=
  rfl

/-- C6 (amended): reconciliation queries each record exactly once in log
order and, provided every status query resolves and every output
download for the records resolves, produces a status-to-count mapping
whose counts sum to the number of records; a status query or download
that raises instead aborts the whole batch, and no unknown status is
recorded by this code. -/
theorem c6_reconcile_counts (gs : String → Except String String)
    (dl : String → String → Except String Unit)
    (records : List TaskRecord)
    (hok : ∀ r ∈ records, (gs r.task_id).isOk = true)
    (hdl : ∀ r ∈ records,
      (dl r.task_id (r.input_dir ++ "/downloaded_outputs")).isOk = true) :
    ∃ counts, monitorMain gs dl records =
        .ok (counts, records.map TaskRecord.task_id) ∧
      countsSum counts = records.length := by
  obtain ⟨c2, heq, hsum⟩ := reconcileLoop_ok gs dl records [] [] hok hdl
  refine ⟨c2, ?_, ?_⟩
  · simpa [monitorMain] using heq
  · simpa [countsSum] using hsum

/-- Witness for C6 (amended): a two-record log against a backend where
every status query resolves to success and every download resolves. -/
theorem c6_reconcile_counts_witness :
    ∃ counts,
      monitorMain (fun _ => .ok "success") (fun _ _ => .ok ())
        [⟨"d1", "t1"⟩, ⟨"d2", "t2"⟩] =
        .ok (counts,
          List.map TaskRecord.task_id [⟨"d1", "t1"⟩, ⟨"d2", "t2"⟩]) ∧
      countsSum counts =
        (List.length (α := TaskRecord) [⟨"d1", "t1"⟩, ⟨"d2", "t2"⟩]) :=
  c6_reconcile_counts (fun _ => .ok "success") (fun _ _ => .ok ())
    [⟨"d1", "t1"⟩, ⟨"d2", "t2"⟩]
    (by intro r _; rfl) (by intro r _; rfl)

/-- C7: every call to simulate substitutes template placeholders from
the union of the simulation-parameter mapping and the wind-tunnel
mapping (each model field reachable under its own name), and copies the
caller-supplied object mesh to the fixed relative destination
constant/triSurface/object.obj, whatever the inputs. -/
theorem c7_case_assembly (wt : WindTunnel) (objPath : String)
    (sp : SimulationParameters) :
    ((WindTunnelScenario.mk wt).simulate objPath sp).substitutions =
        sp.to_dict ++ wt.to_dict ∧
    ((WindTunnelScenario.mk wt).simulate objPath sp).substitutions.lookup
        "num_iterations" = some (.num sp.num_iterations) ∧
    ((WindTunnelScenario.mk wt).simulate objPath sp).substitutions.lookup
        "resolution" = some (.int sp.resolution) ∧
    ((WindTunnelScenario.mk wt).simulate objPath sp).substitutions.lookup
        "flow_velocity" = some (.vec wt.flow_velocity) ∧
    ((WindTunnelScenario.mk wt).simulate objPath sp).substitutions.lookup
        "domain" = some (.domainMap wt.domain) ∧
    ((WindTunnelScenario.mk wt).simulate objPath sp).added_file_src =
        objPath ∧
    ((WindTunnelScenario.mk wt).simulate objPath sp).added_file_dest =
        "constant/triSurface/object.obj" := by
  refine ⟨rfl, ?_, ?_, ?_, ?_, rfl, rfl⟩ <;>
    simp [WindTunnelScenario.simulate, SimulationParameters.to_dict,
      WindTunnel.to_dict, List.lookup]

/-- C8: with every argument omitted, WindTunnel gets flow velocity
(30, 0, 0) and the default domain mapping x to [-5, 15], y to [-4, 4],
z to [0, 8], and SimulationParameters gets num_iterations 100 and
resolution 2. -/
theorem c8_defaults :
    WindTunnel.constructWithDefaults =
      some ⟨(30, 0, 0), [("x", [-5, 15]), ("y", [-4, 4]), ("z", [0, 8])]⟩ ∧
    SimulationParameters.constructWithDefaults = some ⟨100, 2⟩ := by
  refine ⟨?_, rfl⟩
  norm_num [WindTunnel.constructWithDefaults, WindTunnel.construct,
    velocityMagnitudeSq, WindTunnel.defaultFlowVelocity,
    WindTunnel.defaultDomain]

/-- C9: serialization round-trips. For every wind tunnel satisfying the
model invariants, reconstructing from its own serialized mapping yields
the same model; reconstruction from the serialized simulation
parameters is likewise the identity. -/
theorem c9_to_dict_round_trip (w : WindTunnel) (p : SimulationParameters)
    (hv : velocityMagnitudeSq w.flow_velocity < 100 ^ 2)
    (hd : w.domain.map Prod.fst = ["x", "y", "z"]) :
    WindTunnel.fromDict w.to_dict = some w ∧
    SimulationParameters.fromDict p.to_dict = some p := by
  constructor
  · simp [WindTunnel.fromDict, WindTunnel.to_dict, List.lookup,
      WindTunnel.construct, hv, hd]
  · rfl

/-- Witness for C9 at the default wind tunnel and default simulation
parameters. -/
theorem c9_to_dict_round_trip_witness :
    WindTunnel.fromDict
        (WindTunnel.to_dict ⟨(30, 0, 0), WindTunnel.defaultDomain⟩) =
      some ⟨(30, 0, 0), WindTunnel.defaultDomain⟩ ∧
    SimulationParameters.fromDict
        (SimulationParameters.to_dict ⟨100, 2⟩) = some ⟨100, 2⟩ :=
  c9_to_dict_round_trip ⟨(30, 0, 0), WindTunnel.defaultDomain⟩ ⟨100, 2⟩
    (by norm_num [velocityMagnitudeSq])
    (by simp [WindTunnel.defaultDomain])

/-- C10: every call to simulate, whatever the wind tunnel, object path
and parameters, sets the same fixed case root directory, the class
constant SCENARIO_DIR whose value is wind_tunnel_input. -/
theorem c10_fixed_scenario_root (wt : WindTunnel) (objPath : String)
    (sp : SimulationParameters) :
    ((WindTunnelScenario.mk wt).simulate objPath sp).root_dir =
        "wind_tunnel_input" ∧
    WindTunnelScenario.SCENARIO_DIR = "wind_tunnel_input" :=
  ⟨rfl, rfl⟩
